import Mathlib

/-!
Verification of the AP FRQ grading service (main.py).

The pipeline under study is pure apart from the outbound HTTP call and the
clock, so we embed it shallowly:

* JSON values are an inductive type; the calls to json.loads are modelled by
  an executable recursive-descent parser following the json module grammar
  (strict mode, last duplicate key wins).  Two knowingly inexpressible
  corners are noted at the definitions: the non-finite constants NaN and
  Infinity accepted by the Python scanner, and lone UTF-16 surrogates in
  string escapes, neither of which any claim touches.
* Python floats are modelled as exact rationals; all numbers appearing in
  the claims are small and exactly representable.
* The two regular expressions in parse_grading_response are compiled by hand
  into executable search functions; both patterns are backtracking-free, so
  the translation is a direct scan.
* Exceptions become Except values; the backend and the clock become explicit
  parameters (one AttemptOutcome per retry attempt, one timestamp string).
-/

/-- JSON values as produced by json.loads.  Numbers are exact rationals. -/
inductive Json where
  | null : Json
  | bool (b : Bool) : Json
  | num (q : ℚ) : Json
  | str (s : String) : Json
  | arr (elems : List Json) : Json
  | obj (members : List (String × Json)) : Json

/-- The left brace character, written by code point. -/
def lbrace : Char := '\x7b'

/-- The right brace character, written by code point. -/
def rbrace : Char := '\x7d'

/-- Lookup in a decoded object: dict access d[k] / d.get(k). -/
def jGet : List (String × Json) → String → Option Json
  | [], _ => none
  | kv :: rest, key => if kv.1 = key then some kv.2 else jGet rest key

/-- dict get with a default: d.get(k, dflt). -/
def jGetD (o : List (String × Json)) (key : String) (dflt : Json) : Json :=
  (jGet o key).getD dflt

/-- Insertion as performed by the json object hook (a Python dict): a repeated
key overwrites the earlier value in place, keeping the first position. -/
def insertKey (acc : List (String × Json)) (k : String) (v : Json) :
    List (String × Json) :=
  if acc.any (fun kv => kv.1 = k) then
    acc.map (fun kv => if kv.1 = k then (k, v) else kv)
  else acc ++ [(k, v)]

/-- Whitespace skipped between JSON tokens: space, tab, newline, return. -/
def jsonWsChar (c : Char) : Bool :=
  c = ' ' || c = '\t' || c = '\n' || c = '\r'

/-- Drop leading JSON whitespace. -/
def skipWsL (cs : List Char) : List Char := cs.dropWhile jsonWsChar

/-- Numeric value of a hexadecimal digit. -/
def hexVal (c : Char) : Option ℕ :=
  if c.isDigit then some (c.toNat - '0'.toNat)
  else if 'a' ≤ c ∧ c ≤ 'f' then some (c.toNat - 'a'.toNat + 10)
  else if 'A' ≤ c ∧ c ≤ 'F' then some (c.toNat - 'A'.toNat + 10)
  else none

/-- Single-character JSON string escapes. -/
def escChar (c : Char) : Option Char :=
  if c = '"' then some '"'
  else if c = '\\' then some '\\'
  else if c = '/' then some '/'
  else if c = 'b' then some '\x08'
  else if c = 'f' then some '\x0c'
  else if c = 'n' then some '\n'
  else if c = 'r' then some '\r'
  else if c = 't' then some '\t'
  else none

/-- Body of a JSON string literal, after the opening quote.  Returns the
decoded characters and the remaining input after the closing quote.  Strict
mode: raw control characters below 0x20 are rejected.  Lone surrogate
escapes, which CPython allows, are not representable as Lean characters and
are rejected here; no claim involves them. -/
def jparseStringAux : List Char → Option (List Char × List Char)
  | [] => none
  | c :: rest =>
    if c = '"' then some ([], rest)
    else if c = '\\' then
      match rest with
      | [] => none
      | e :: rest2 =>
        if e = 'u' then
          match rest2 with
          | h1 :: h2 :: h3 :: h4 :: rest3 =>
            match hexVal h1, hexVal h2, hexVal h3, hexVal h4 with
            | some a, some b, some c2, some d =>
              let n := ((a * 16 + b) * 16 + c2) * 16 + d
              if n < 0xd800 ∨ 0xe000 ≤ n then
                match jparseStringAux rest3 with
                | some (s, r) => some (Char.ofNat n :: s, r)
                | none => none
              else none
            | _, _, _, _ => none
          | _ => none
        else
          match escChar e with
          | some ec =>
            match jparseStringAux rest2 with
            | some (s, r) => some (ec :: s, r)
            | none => none
          | none => none
    else if c.toNat < 0x20 then none
    else
      match jparseStringAux rest with
      | some (s, r) => some (c :: s, r)
      | none => none

/-- Value of a digit string. -/
def natOfDigits (ds : List Char) : ℕ :=
  ds.foldl (fun n c => n * 10 + (c.toNat - '0'.toNat)) 0

/-- Fraction and exponent tail of a JSON number, given the integer part.
A dot or exponent mark without following digits is left unconsumed, exactly
as the scanner regex of the json module leaves it (the enclosing parse then
fails on the leftover character). -/
def jparseNumTail (ip : ℕ) (neg : Bool) (cs : List Char) :
    ℚ × List Char :=
  let fracStep : ℚ × List Char :=
    match cs with
    | '.' :: r =>
      let s := r.span Char.isDigit
      if s.1 = [] then ((ip : ℚ), cs)
      else ((ip : ℚ) + (natOfDigits s.1 : ℚ) / (10 : ℚ) ^ s.1.length, s.2)
    | _ => ((ip : ℚ), cs)
  let expStep : ℚ × List Char :=
    match fracStep.2 with
    | e :: r =>
      if e = 'e' ∨ e = 'E' then
        let signDigits : ℤ × List Char :=
          match r with
          | '+' :: t => (1, t)
          | '-' :: t => (-1, t)
          | _ => (1, r)
        let ds := signDigits.2.span Char.isDigit
        if ds.1 = [] then (fracStep.1, fracStep.2)
        else (fracStep.1 * (10 : ℚ) ^ (signDigits.1 * (natOfDigits ds.1 : ℤ)),
              ds.2)
      else (fracStep.1, fracStep.2)
    | [] => (fracStep.1, fracStep.2)
  ((if neg then -expStep.1 else expStep.1), expStep.2)

/-- A JSON number at the head of the input: -?(0|[1-9][0-9]*) frac? exp?.
A leading zero stops the integer part after the single zero, as in the json
module.  The NaN and Infinity constants the Python scanner additionally
accepts have no rational value and are not modelled; no claim uses them. -/
def jparseNumber (cs : List Char) : Option (ℚ × List Char) :=
  let signed : Bool × List Char :=
    match cs with
    | '-' :: r => (true, r)
    | _ => (false, cs)
  match signed.2 with
  | [] => none
  | c :: r =>
    if c = '0' then some (jparseNumTail 0 signed.1 r)
    else if c.isDigit then
      let ds := signed.2.span Char.isDigit
      some (jparseNumTail (natOfDigits ds.1) signed.1 ds.2)
    else none

/-!
A JSON value at the head of the input (whitespace already skipped), with
the remaining input.  Fuel bounds the recursion depth; every recursive call
follows the consumption of at least one character, so any fuel above the
input length is enough.
-/
mutual

def jparseValue : ℕ → List Char → Option (Json × List Char)
  | 0, _ => none
  | fuel + 1, cs =>
    match cs with
    | [] => none
    | c :: r =>
      if c = '"' then
        match jparseStringAux r with
        | some (s, rest) => some (Json.str (String.mk s), rest)
        | none => none
      else if c = lbrace then
        let r1 := skipWsL r
        match r1 with
        | c2 :: r2 =>
          if c2 = rbrace then some (Json.obj [], r2)
          else jparseMembers fuel r1 []
        | [] => none
      else if c = '[' then
        let r1 := skipWsL r
        match r1 with
        | c2 :: r2 =>
          if c2 = ']' then some (Json.arr [], r2)
          else jparseElements fuel r1 []
        | [] => none
      else
        match cs with
        | 't' :: 'r' :: 'u' :: 'e' :: rest => some (Json.bool true, rest)
        | 'f' :: 'a' :: 'l' :: 's' :: 'e' :: rest => some (Json.bool false, rest)
        | 'n' :: 'u' :: 'l' :: 'l' :: rest => some (Json.null, rest)
        | _ =>
          match jparseNumber cs with
          | some (q, rest) => some (Json.num q, rest)
          | none => none

def jparseMembers : ℕ → List Char → List (String × Json) →
    Option (Json × List Char)
  | 0, _, _ => none
  | fuel + 1, cs, acc =>
    match cs with
    | [] => none
    | c :: r =>
      if c = '"' then
        match jparseStringAux r with
        | some (k, r1) =>
          match skipWsL r1 with
          | c2 :: r2 =>
            if c2 = ':' then
              match jparseValue fuel (skipWsL r2) with
              | some (v, r3) =>
                let acc2 := insertKey acc (String.mk k) v
                match skipWsL r3 with
                | c3 :: r4 =>
                  if c3 = ',' then jparseMembers fuel (skipWsL r4) acc2
                  else if c3 = rbrace then some (Json.obj acc2, r4)
                  else none
                | [] => none
              | none => none
            else none
          | [] => none
        | none => none
      else none

def jparseElements : ℕ → List Char → List Json → Option (Json × List Char)
  | 0, _, _ => none
  | fuel + 1, cs, acc =>
    match jparseValue fuel cs with
    | some (v, r) =>
      let acc2 := acc ++ [v]
      match skipWsL r with
      | c :: r2 =>
        if c = ',' then jparseElements fuel (skipWsL r2) acc2
        else if c = ']' then some (Json.arr acc2, r2)
        else none
      | [] => none
    | none => none

end

/-- json.loads: a single JSON document, surrounding whitespace allowed,
nothing may follow it (the Extra data error becomes a failed parse). -/
def json_loads (s : String) : Option Json :=
  match jparseValue (s.length + 1) (skipWsL s.data) with
  | some (v, rest) => if skipWsL rest = [] then some v else none
  | none => none

/-!
The primary extraction regex of parse_grading_response, from main.py line
173, written against raw text in this comment with braces spelled out:
  backslash-lbrace [^ lbrace rbrace ]* (?: lbrace [^..]* rbrace [^..]* )* rbrace
with re.DOTALL.  The pattern has no real backtracking: the bracketed classes
exclude both braces, so once the greedy inner runs are taken every later
alternative is forced.  The search below is therefore an exact translation:
at a candidate start the match succeeds on the shape
  lbrace D* ( lbrace D* rbrace D* )* rbrace
with D a non-brace character, and re.search takes the leftmost successful
start.
-/

/-- A character distinct from both braces. -/
def nonBrace (c : Char) : Bool := !(c = lbrace) && !(c = rbrace)

/-- The repeated-group-then-close part of the brace pattern, entered with the
scan position just after a maximal non-brace run.  Returns the consumed
characters including the final closing brace, with the rest of the input. -/
def braceLoop : ℕ → List Char → Option (List Char × List Char)
  | 0, _ => none
  | fuel + 1, cs =>
    match cs with
    | [] => none
    | c :: r =>
      if c = rbrace then some ([rbrace], r)
      else if c = lbrace then
        let p := r.span nonBrace
        match p.2 with
        | c2 :: r2 =>
          if c2 = rbrace then
            let p2 := r2.span nonBrace
            match braceLoop fuel p2.2 with
            | some (g, rest) =>
              some (lbrace :: p.1 ++ rbrace :: p2.1 ++ g, rest)
            | none => none
          else none
        | [] => none
      else none

/-- Match of the brace pattern anchored at the head of the input. -/
def braceMatchAt (cs : List Char) : Option (List Char) :=
  match cs with
  | [] => none
  | c :: r =>
    if c = lbrace then
      let p := r.span nonBrace
      match braceLoop (p.2.length + 1) p.2 with
      | some (g, _) => some (lbrace :: p.1 ++ g)
      | none => none
    else none

/-- re.search for the brace pattern: the match at the leftmost position where
one exists. -/
def braceSearch : List Char → Option (List Char)
  | [] => none
  | c :: cs =>
    match braceMatchAt (c :: cs) with
    | some m => some m
    | none => braceSearch cs

/-!
The fallback regex of main.py line 199: score [: whitespace]+ capture of
digits, optional dot, digits; compiled with re.IGNORECASE.  Again there is
no effective backtracking: the separator class contains no digit, so the
greedy separator run cannot steal the first digit of the capture.
-/

/-- Characters matched by the separator class of the fallback pattern: the
colon and Python backslash-s whitespace (ASCII part). -/
def scoreSep (c : Char) : Bool :=
  c = ':' || c = ' ' || c = '\t' || c = '\n' || c = '\r' || c = '\x0b' || c = '\x0c'

/-- Match of the fallback pattern anchored at the head of the input,
returning the captured number text. -/
def scoreMatchAt (cs : List Char) : Option (List Char) :=
  match cs with
  | a :: b :: c :: d :: e :: rest =>
    if a.toLower = 's' ∧ b.toLower = 'c' ∧ c.toLower = 'o' ∧ d.toLower = 'r'
        ∧ e.toLower = 'e' then
      let sep := rest.span scoreSep
      if sep.1 = [] then none
      else
        let ds := sep.2.span Char.isDigit
        if ds.1 = [] then none
        else
          match ds.2 with
          | '.' :: r2 => some (ds.1 ++ '.' :: (r2.span Char.isDigit).1)
          | _ => some ds.1
    else none
  | _ => none

/-- re.search for the fallback pattern: the capture at the leftmost position
where the whole pattern matches. -/
def scoreSearch : List Char → Option (List Char)
  | [] => none
  | c :: cs =>
    match scoreMatchAt (c :: cs) with
    | some m => some m
    | none => scoreSearch cs

/-- Python float(str): surrounding whitespace stripped, optional sign, then
a decimal literal with optional fraction and exponent.  The special texts
inf, infinity and nan, and underscore digit separators, have no rational
counterpart and are not modelled; no claim depends on them. -/
def pyFloatOfChars (cs0 : List Char) : Option ℚ :=
  let ws := fun (c : Char) => c = ' ' || c = '\t' || c = '\n' || c = '\r'
    || c = '\x0b' || c = '\x0c'
  let cs := ((cs0.dropWhile ws).reverse.dropWhile ws).reverse
  let signed : Bool × List Char :=
    match cs with
    | '+' :: r => (false, r)
    | '-' :: r => (true, r)
    | _ => (false, cs)
  let ip := signed.2.span Char.isDigit
  let mant : Option (ℚ × List Char) :=
    match ip.2 with
    | '.' :: r2 =>
      let fp := r2.span Char.isDigit
      if ip.1 = [] ∧ fp.1 = [] then none
      else some ((natOfDigits ip.1 : ℚ)
        + (natOfDigits fp.1 : ℚ) / (10 : ℚ) ^ fp.1.length, fp.2)
    | _ => if ip.1 = [] then none else some ((natOfDigits ip.1 : ℚ), ip.2)
  match mant with
  | none => none
  | some (m, rest) =>
    let v : Option ℚ :=
      match rest with
      | [] => some m
      | e :: r2 =>
        if e = 'e' ∨ e = 'E' then
          let signDigits : ℤ × List Char :=
            match r2 with
            | '+' :: t => (1, t)
            | '-' :: t => (-1, t)
            | _ => (1, r2)
          let ds := signDigits.2.span Char.isDigit
          if ds.1 = [] ∨ ds.2 ≠ [] then none
          else some (m * (10 : ℚ) ^ (signDigits.1 * (natOfDigits ds.1 : ℤ)))
        else none
    v.map (fun q => if signed.1 then -q else q)

/-- Python float(v) on a decoded JSON value.  Numbers pass through, booleans
become 0 or 1, strings are parsed; None, lists and dicts raise TypeError and
non-numeric strings raise ValueError, both modelled as errors. -/
def pyFloat : Json → Except String ℚ
  | .num q => .ok q
  | .bool b => .ok (if b then 1 else 0)
  | .str s =>
    match pyFloatOfChars s.data with
    | some q => .ok q
    | none => .error ("could not convert string to float: " ++ s)
  | .null => .error "float argument must be a string or a real number, not NoneType"
  | .arr _ => .error "float argument must be a string or a real number, not list"
  | .obj _ => .error "float argument must be a string or a real number, not dict"

/-- Python round to the nearest integer, ties to even. -/
def roundHalfEven (q : ℚ) : ℤ :=
  let f : ℤ := Rat.floor q
  let r : ℚ := q - (f : ℚ)
  if r < 1 / 2 then f
  else if 1 / 2 < r then f + 1
  else if f % 2 = 0 then f else f + 1

/-- Python round(x, 2) on the exact rational model of the float. -/
def pyRound2 (q : ℚ) : ℚ := (roundHalfEven (q * 100) : ℚ) / 100

/-- The request model (pydantic GradingRequest).  max_points is an integer,
validated by the field constraints to lie in [1, 100]. -/
structure GradingRequest where
  student_response : String
  rubric : String
  question_prompt : String
  max_points : ℤ
  question_number : Option String
deriving DecidableEq

/-- The response model (pydantic GradingResponse); float fields are exact
rationals and the timestamp is the string the clock produced. -/
structure GradingResponse where
  score : ℚ
  max_points : ℚ
  percentage : ℚ
  feedback : String
  rubric_alignment : List (String × ℚ)
  timestamp : String
  question_number : Option String
deriving DecidableEq

/-- The health check response model. -/
structure HealthResponse where
  status : String
  ollama_available : Bool
  model : String
deriving DecidableEq

/-- max(0, min(score, max_points)) from main.py lines 183 and 201. -/
def clampScore (s mp : ℚ) : ℚ := max 0 (min s mp)

/-- percentage before rounding: (score / max_points) * 100 if max_points
is positive else 0, main.py lines 184 and 202. -/
def pctOf (s mp : ℚ) : ℚ := if 0 < mp then s / mp * 100 else 0

/-- float(data.get("score", 0)) on the decoded object. -/
def extractScore (o : List (String × Json)) : Except String ℚ :=
  pyFloat (jGetD o "score" (Json.num 0))

/-- data.get("feedback", llm_response), validated by the str field of the
response model: a present non-string value fails validation. -/
def extractFeedback (o : List (String × Json)) (llm_response : String) :
    Except String String :=
  match jGet o "feedback" with
  | none => .ok llm_response
  | some (Json.str s) => .ok s
  | some _ => .error "feedback is not a valid string"

/-- One value of the rubric_alignment mapping, coerced to float by the
pydantic Dict str float field (numbers directly, numeric strings parsed). -/
def rubricValue : Json → Except String ℚ
  | .num q => .ok q
  | .str s =>
    match pyFloatOfChars s.data with
    | some q => .ok q
    | none => .error "rubric_alignment value is not a valid number"
  | _ => .error "rubric_alignment value is not a valid number"

/-- data.get("rubric_alignment", an empty dict), validated as a mapping from
strings to floats. -/
def extractRubric (o : List (String × Json)) :
    Except String (List (String × ℚ)) :=
  match jGet o "rubric_alignment" with
  | none => .ok []
  | some (Json.obj kvs) =>
    kvs.mapM (fun kv => (rubricValue kv.2).map (fun q => (kv.1, q)))
  | some _ => .error "rubric_alignment is not a valid mapping"

/-- The number the fallback path reads out of the text: the captured group
converted by float(), or 0.0 when the pattern is absent.  The capture is
digits, an optional dot and digits, on which float() always succeeds. -/
def fallbackScore0 (llm_response : String) : ℚ :=
  match scoreSearch llm_response.data with
  | some ns => (pyFloatOfChars ns).getD 0
  | none => 0

/-- The fallback branch of parse_grading_response, main.py lines 198-212. -/
def fallbackResponse (llm_response : String) (mp : ℚ) (qn : Option String)
    (now : String) : GradingResponse :=
  let s := clampScore (fallbackScore0 llm_response) mp
  { score := s
    max_points := mp
    percentage := pyRound2 (pctOf s mp)
    feedback := llm_response
    rubric_alignment := [("overall", if 0 < mp then s / mp else 0)]
    timestamp := now
    question_number := qn }

/-- The structured branch of parse_grading_response, main.py lines 176-194:
field extraction, the clamp, the percentage and the response record.  The
errors are the uncaught Python exceptions of that branch: only a JSON decode
failure is caught there, conversion and validation failures propagate. -/
def primaryResponse (o : List (String × Json)) (llm_response : String)
    (mp : ℚ) (qn : Option String) (now : String) :
    Except String GradingResponse :=
  match extractScore o with
  | .error e => .error e
  | .ok s0 =>
    match extractFeedback o llm_response with
    | .error e => .error e
    | .ok fb =>
      match extractRubric o with
      | .error e => .error e
      | .ok ra =>
        let s := clampScore s0 mp
        .ok { score := s
              max_points := mp
              percentage := pyRound2 (pctOf s mp)
              feedback := fb
              rubric_alignment := ra
              timestamp := now
              question_number := qn }

/-- The object the primary path will work on: the leftmost brace-pattern
match decoded by json.loads.  none covers both no regex match and a decode
failure, the two roads into the fallback branch.  A successful decode of a
match is necessarily an object, since the match starts with a brace. -/
def primaryDecoded (llm_response : String) :
    Option (List (String × Json)) :=
  match braceSearch llm_response.data with
  | none => none
  | some m =>
    match json_loads (String.mk m) with
    | some (Json.obj o) => some o
    | _ => none

/-- parse_grading_response, main.py lines 164-212.  The clock is passed in
as the timestamp string. -/
def parse_grading_response (llm_response : String) (mp : ℚ)
    (qn : Option String) (now : String) : Except String GradingResponse :=
  match primaryDecoded llm_response with
  | some o => primaryResponse o llm_response mp qn now
  | none => .ok (fallbackResponse llm_response mp qn now)

/-- MAX_RETRIES, main.py line 36. -/
def MAX_RETRIES : ℕ := 3

/-- OLLAMA_MODEL with its default value, main.py line 34. -/
def OLLAMA_MODEL : String := "phi3:mini"

/-- FastAPI HTTPException: a status code and a detail message. -/
structure HTTPException where
  status_code : ℕ
  detail : String
deriving DecidableEq

/-- str(e) on an HTTPException: status code, colon, detail. -/
def httpExceptionText (e : HTTPException) : String :=
  toString e.status_code ++ ": " ++ e.detail

/-- What one attempt of the backend request does.  success carries the
decoded JSON body of a 2xx reply; timeout is httpx.TimeoutException;
httpError is the raise_for_status failure on a non-2xx reply; otherError is
any other exception out of the attempt body (connection failures, a body
that is not JSON, and so on). -/
inductive AttemptOutcome where
  | success (body : List (String × Json)) : AttemptOutcome
  | timeout : AttemptOutcome
  | httpError (msg : String) : AttemptOutcome
  | otherError (msg : String) : AttemptOutcome

/-- The retry loop of call_ollama, main.py lines 92-110: remaining counts
the attempts still allowed including the current one, attempt is the
zero-based index, so remaining = 0 after the match means the attempt just
made was number MAX_RETRIES - 1 and its failure is raised typed.  The 0 base
case is the unreachable raise after the loop, line 112. -/
def callOllamaAux (oc : ℕ → AttemptOutcome) :
    ℕ → ℕ → Except HTTPException Json
  | 0, _ => .error ⟨500, "Failed to call Ollama after retries"⟩
  | remaining + 1, attempt =>
    match oc attempt with
    | .success body => .ok (jGetD body "response" (Json.str ""))
    | .timeout =>
      if remaining = 0 then .error ⟨504, "Ollama service timeout"⟩
      else callOllamaAux oc remaining (attempt + 1)
    | .httpError msg =>
      if remaining = 0 then .error ⟨502, "Ollama service error: " ++ msg⟩
      else callOllamaAux oc remaining (attempt + 1)
    | .otherError msg =>
      if remaining = 0 then .error ⟨500, "Internal error: " ++ msg⟩
      else callOllamaAux oc remaining (attempt + 1)

/-- call_ollama, main.py lines 66-112, with the backend abstracted as the
outcome of each attempt.  On a 2xx reply the returned value is
result.get("response", an empty string). -/
def call_ollama (oc : ℕ → AttemptOutcome) : Except HTTPException Json :=
  callOllamaAux oc MAX_RETRIES 0

/-- grade_frq, main.py lines 240-278.  The prompt construction is pure
string composition with no effect on any claim; the backend reaction is
already abstracted in the attempt outcomes.  An HTTPException from
call_ollama is re-raised as is; any other exception (a parse failure, or
re.search on a non-string reply value raising TypeError) is wrapped into a
500 Grading failed error by the handler at line 276. -/
def grade_frq (oc : ℕ → AttemptOutcome) (req : GradingRequest)
    (now : String) : Except HTTPException GradingResponse :=
  match call_ollama oc with
  | .error e => .error e
  | .ok (Json.str s) =>
    match parse_grading_response s (req.max_points : ℚ) req.question_number now with
    | .ok r => .ok r
    | .error msg => .error ⟨500, "Grading failed: " ++ msg⟩
  | .ok _ =>
    .error ⟨500, "Grading failed: expected string or bytes-like object"⟩

/-- The zero-score item built in the batch loop for a failed request,
main.py lines 295-303. -/
def errorResponse (req : GradingRequest) (e : HTTPException)
    (now : String) : GradingResponse :=
  { score := 0
    max_points := (req.max_points : ℚ)
    percentage := 0
    feedback := "Error during grading: " ++ httpExceptionText e
    rubric_alignment := []
    timestamp := now
    question_number := req.question_number }

/-- grade_batch, main.py lines 281-304: sequential processing, each item
paired with the backend behaviour its own call_ollama sees. -/
def grade_batch (env : List (GradingRequest × (ℕ → AttemptOutcome)))
    (now : String) : List GradingResponse :=
  env.map (fun item =>
    match grade_frq item.2 item.1 now with
    | .ok r => r
    | .error e => errorResponse item.1 e now)

/-- Outcome of the reachability probe in the root endpoint: either a reply
with some status code, or any exception out of the request. -/
inductive ProbeOutcome where
  | response (status_code : ℕ) : ProbeOutcome
  | failure (msg : String) : ProbeOutcome
deriving DecidableEq

/-- The root endpoint, main.py lines 215-230: ollama_available is whether
the probe replied 200, every exception leaves it False, and the returned
status is unconditionally healthy.  The function is total, so the endpoint
answers 200 for every probe outcome. -/
def root (probe : ProbeOutcome) : HealthResponse :=
  { status := "healthy"
    ollama_available :=
      match probe with
      | .response code => code = 200
      | .failure _ => false
    model := OLLAMA_MODEL }

/-- The health endpoint, main.py lines 233-236: it returns await root(). -/
def health (probe : ProbeOutcome) : HealthResponse := root probe

/-- Is an Except a success. -/
def eIsOk {ε α : Type} : Except ε α → Bool
  | .ok _ => true
  | .error _ => false

/-- An attempt outcome that raises. -/
def isFailure : AttemptOutcome → Bool
  | .success _ => false
  | _ => true

/-- The typed HTTPException the final attempt raises for its failure kind,
main.py lines 102, 106 and 110. -/
def failureException : AttemptOutcome → HTTPException
  | .timeout => ⟨504, "Ollama service timeout"⟩
  | .httpError msg => ⟨502, "Ollama service error: " ++ msg⟩
  | .otherError msg => ⟨500, "Internal error: " ++ msg⟩
  | .success _ => ⟨500, "Failed to call Ollama after retries"⟩

/-- Does every decoded field of the primary object pass conversion and
validation (vacuously true when the fallback branch runs). -/
def primaryWellTyped (llm_response : String) : Bool :=
  match primaryDecoded llm_response with
  | some o =>
    eIsOk (extractScore o) && eIsOk (extractFeedback o llm_response)
      && eIsOk (extractRubric o)
  | none => true

/-!
Concrete inputs and expected outputs used by the witnesses and
counterexamples below.  The braces inside the raw texts are written by code
point.
-/

/-- A reply whose embedded JSON reports a score above the maximum. -/
def raw15 : String := "\x7b\"score\": 15\x7d"

/-- A reply whose embedded JSON reports score 8. -/
def raw8 : String := "\x7b\"score\": 8\x7d"

/-- A reply whose embedded JSON carries a non-numeric score string. -/
def rawBadScore : String := "\x7b\"score\": \"abc\"\x7d"

/-- A reply with no JSON and a textual score. -/
def rawScore7 : String := "Score: 7 out of 10"

/-- A reply with neither JSON nor a score pattern. -/
def rawPlain : String := "no json, no score here"

/-- A reply that is just an empty JSON object. -/
def rawEmptyObj : String := "\x7b\x7d"

/-- A reply whose rubric_alignment value lies outside the unit interval. -/
def rawRubric25 : String :=
  "\x7b\"score\": 5, \"rubric_alignment\": \x7b\"a\": 2.5\x7d\x7d"

/-- Expected result for raw15 at 10 points: the score is clamped to 10. -/
def resp15 : GradingResponse := ⟨10, 10, 100, raw15, [], "", none⟩

/-- Expected result for raw8 at 10 points. -/
def resp8 : GradingResponse := ⟨8, 10, 80, raw8, [], "", none⟩

/-- Expected result for rawScore7 at 10 points via the fallback branch. -/
def resp7 : GradingResponse :=
  ⟨7, 10, 70, rawScore7, [("overall", 7 / 10)], "", none⟩

/-- Expected result for rawEmptyObj at 10 points: every field defaulted. -/
def respEmptyObj : GradingResponse := ⟨0, 10, 0, rawEmptyObj, [], "", none⟩

/-- Expected result for rawRubric25 at 10 points: the out-of-range rubric
value is passed through. -/
def respRubric25 : GradingResponse :=
  ⟨5, 10, 50, rawRubric25, [("a", 5 / 2)], "", none⟩

/-- A backend that fails with a generic exception once, then succeeds. -/
def ocBoom : ℕ → AttemptOutcome := fun i =>
  if i = 0 then .otherError "boom"
  else .success [("response", Json.str "hi")]

/-- A backend that times out on every attempt. -/
def ocTimeout : ℕ → AttemptOutcome := fun _ => .timeout

/-- A backend that replies 200 with the given generated text. -/
def ocGood (text : String) : ℕ → AttemptOutcome := fun _ =>
  .success [("response", Json.str text)]

/-- First batch request. -/
def reqA : GradingRequest := ⟨"answer A", "the rubric", "the question", 10, some "1"⟩

/-- Second batch request, whose backend call will fail. -/
def reqB : GradingRequest := ⟨"answer B", "the rubric", "the question", 10, some "2"⟩

/-- Third batch request. -/
def reqC : GradingRequest := ⟨"answer C", "the rubric", "the question", 10, some "3"⟩

/-- A three-item batch whose middle item times out on every attempt. -/
def env3 : List (GradingRequest × (ℕ → AttemptOutcome)) :=
  [(reqA, ocGood "Score: 8 out of 10"), (reqB, ocTimeout),
   (reqC, ocGood "Score: 9 out of 10")]

/-- The result item A of env3 gets when graded alone. -/
def respBatchA : GradingResponse :=
  ⟨8, 10, 80, "Score: 8 out of 10", [("overall", 4 / 5)], "t", some "1"⟩

/-- The result item C of env3 gets when graded alone. -/
def respBatchC : GradingResponse :=
  ⟨9, 10, 90, "Score: 9 out of 10", [("overall", 9 / 10)], "t", some "3"⟩

/-- A 2xx backend reply body with no response field. -/
def bodyNoResponse : List (String × Json) := [("done", Json.bool true)]

/-- The clamp never goes below zero. -/
theorem clampScore_nonneg (s mp : ℚ) : 0 ≤ clampScore s mp :=
  le_max_left 0 _

/-- The clamp never exceeds a nonnegative maximum. -/
theorem clampScore_le (s mp : ℚ) (h : 0 ≤ mp) : clampScore s mp ≤ mp :=
  max_le h (min_le_right s mp)

/-- Clamping zero gives zero. -/
theorem clampScore_zero (mp : ℚ) : clampScore 0 mp = 0 :=
  max_eq_left (min_le_left 0 mp)

/-- With a nonpositive maximum the clamp collapses to zero. -/
theorem clampScore_of_nonpos (s mp : ℚ) (h : mp ≤ 0) : clampScore s mp = 0 :=
  max_eq_left ((min_le_right s mp).trans h)

/-- Rounding zero gives zero. -/
theorem pyRound2_zero : pyRound2 0 = 0 := by with_unfolding_all decide

/-- The percentage of a zero score is zero. -/
theorem pctOf_zero_left (mp : ℚ) : pctOf 0 mp = 0 := by
  unfold pctOf
  split <;> simp

/-- The guarded overall rubric entry equals plain division of the clamped
score, using that division by a nonpositive rational is zero anyway. -/
theorem overall_eq_div (s0 mp : ℚ) :
    (if 0 < mp then clampScore s0 mp / mp else 0) = clampScore s0 mp / mp := by
  split
  · rfl
  · rename_i h
    rcases lt_or_eq_of_le (le_of_not_lt h) with hlt | heq
    · rw [clampScore_of_nonpos _ _ (le_of_lt hlt), zero_div]
    · subst heq
      rw [div_zero]

/-- parse_grading_response reduced on the fallback branch. -/
theorem parse_eq_fallback (raw : String) (mp : ℚ) (qn : Option String)
    (now : String) (h : primaryDecoded raw = none) :
    parse_grading_response raw mp qn now =
      .ok (fallbackResponse raw mp qn now) := by
  unfold parse_grading_response
  rw [h]

/-- parse_grading_response reduced on the structured branch. -/
theorem parse_eq_primary (raw : String) (mp : ℚ) (qn : Option String)
    (now : String) (o : List (String × Json))
    (h : primaryDecoded raw = some o) :
    parse_grading_response raw mp qn now = primaryResponse o raw mp qn now := by
  unfold parse_grading_response
  rw [h]

/-- Every successful parse result has the canonical shape: a clamped score,
the percentage recomputed from that score, and the arguments echoed into
max_points, timestamp and question_number. -/
theorem parse_ok_shape (raw : String) (mp : ℚ) (qn : Option String)
    (now : String) (r : GradingResponse)
    (h : parse_grading_response raw mp qn now = .ok r) :
    (∃ s0, r.score = clampScore s0 mp)
      ∧ r.percentage = pyRound2 (pctOf r.score mp)
      ∧ r.max_points = mp ∧ r.timestamp = now ∧ r.question_number = qn := by
  cases hd : primaryDecoded raw with
  | none =>
    rw [parse_eq_fallback raw mp qn now hd] at h
    injection h with h2
    subst h2
    exact ⟨⟨fallbackScore0 raw, rfl⟩, rfl, rfl, rfl, rfl⟩
  | some o =>
    rw [parse_eq_primary raw mp qn now o hd] at h
    unfold primaryResponse at h
    split at h
    · exact Except.noConfusion h
    · rename_i s0 hs
      split at h
      · exact Except.noConfusion h
      · rename_i fb hf
        split at h
        · exact Except.noConfusion h
        · rename_i ra hr
          injection h with h2
          subst h2
          exact ⟨⟨s0, rfl⟩, rfl, rfl, rfl, rfl⟩

/-- The well-typedness of one decoded object: score converts to float,
feedback and rubric_alignment pass field validation. -/
def objWellTyped (o : List (String × Json)) (raw : String) : Bool :=
  eIsOk (extractScore o) && eIsOk (extractFeedback o raw)
    && eIsOk (extractRubric o)

/-- primaryWellTyped reduced on a decoded object. -/
theorem primaryWellTyped_some (raw : String) (o : List (String × Json))
    (h : primaryDecoded raw = some o) :
    primaryWellTyped raw = objWellTyped o raw := by
  unfold primaryWellTyped objWellTyped
  rw [h]

/-- The structured branch returns a value whenever the decoded object is
well typed. -/
theorem primaryRespOk (o : List (String × Json)) (raw : String) (mp : ℚ)
    (qn : Option String) (now : String) (h : objWellTyped o raw = true) :
    eIsOk (primaryResponse o raw mp qn now) = true := by
  unfold objWellTyped at h
  simp only [Bool.and_eq_true] at h
  obtain ⟨⟨h1, h2⟩, h3⟩ := h
  unfold primaryResponse
  cases hs : extractScore o with
  | error e => rw [hs] at h1; exact Bool.noConfusion h1
  | ok s0 =>
    cases hf : extractFeedback o raw with
    | error e => rw [hf] at h2; exact Bool.noConfusion h2
    | ok fb =>
      cases hr : extractRubric o with
      | error e => rw [hr] at h3; exact Bool.noConfusion h3
      | ok ra => rfl

/-- C1: for every raw model text and every max_points above zero, a
GradingResponse produced by parse_grading_response has its score inside
[0, max_points], both when the embedded JSON reports an out-of-range score
and on the fallback text path: every branch applies the clamp. -/
theorem parse_score_within_bounds (raw : String) (mp : ℚ)
    (qn : Option String) (now : String) (r : GradingResponse) (hmp : 0 < mp)
    (h : parse_grading_response raw mp qn now = .ok r) :
    0 ≤ r.score ∧ r.score ≤ mp := by
  obtain ⟨⟨s0, hs⟩, -, -, -, -⟩ := parse_ok_shape raw mp qn now r h
  rw [hs]
  exact ⟨clampScore_nonneg s0 mp, clampScore_le s0 mp (le_of_lt hmp)⟩

/-- C1 witness: the reply reporting score 15 at 10 points parses to the
clamped score 10, which the theorem brackets into [0, 10]. -/
theorem parse_score_within_bounds_witness :
    (0 : ℚ) < 10 ∧ parse_grading_response raw15 10 none "" = .ok resp15
      ∧ (0 ≤ resp15.score ∧ resp15.score ≤ 10) :=
  ⟨by norm_num, by with_unfolding_all rfl,
   parse_score_within_bounds raw15 10 none "" resp15 (by norm_num)
     (by with_unfolding_all rfl)⟩

/-- C2: for every GradingResponse produced by parse_grading_response, the
percentage is the two-decimal rounding of 100 x score / max_points when
max_points is positive, and 0 when max_points is zero. -/
theorem parse_percentage_formula (raw : String) (mp : ℚ)
    (qn : Option String) (now : String) (r : GradingResponse)
    (h : parse_grading_response raw mp qn now = .ok r) :
    (0 < mp → r.percentage = pyRound2 (100 * r.score / mp))
      ∧ (mp = 0 → r.percentage = 0) := by
  obtain ⟨-, hp, -, -, -⟩ := parse_ok_shape raw mp qn now r h
  constructor
  · intro hmp
    rw [hp]
    unfold pctOf
    rw [if_pos hmp]
    congr 1
    ring
  · intro h0
    subst h0
    rw [hp]
    unfold pctOf
    rw [if_neg (lt_irrefl (0 : ℚ))]
    exact pyRound2_zero

/-- C2 witness: valid embedded JSON with score 8 at 10 points yields score
8 and percentage 80, matching the rounded formula. -/
theorem parse_percentage_formula_witness :
    parse_grading_response raw8 10 none "" = .ok resp8
      ∧ resp8.percentage = pyRound2 (100 * resp8.score / 10)
      ∧ resp8.score = 8 ∧ resp8.percentage = 80 :=
  ⟨by with_unfolding_all rfl,
   (parse_percentage_formula raw8 10 none "" resp8
     (by with_unfolding_all rfl)).1 (by norm_num),
   by with_unfolding_all rfl, by with_unfolding_all rfl⟩

/-- C3 counterexample: a reply whose embedded JSON carries the score as the
string abc decodes fine, but float() on that string raises, so
parse_grading_response propagates an error instead of returning a
GradingResponse; the endpoint surfaces it as a 500, not a parsed result. -/
theorem parse_error_on_nonnumeric_score :
    parse_grading_response rawBadScore 10 none ""
      = .error "could not convert string to float: abc" := by
  with_unfolding_all rfl

/-- C3 amended: parse_grading_response returns a GradingResponse whenever
the structured branch is skipped (no regex match, or json.loads failure) or
its decoded object is well typed; only a decoded object with an
unconvertible score or an invalid feedback or rubric_alignment field makes
it raise. -/
theorem parse_ok_when_primary_welltyped (raw : String) (mp : ℚ)
    (qn : Option String) (now : String) (h : primaryWellTyped raw = true) :
    eIsOk (parse_grading_response raw mp qn now) = true := by
  cases hd : primaryDecoded raw with
  | none =>
    rw [parse_eq_fallback raw mp qn now hd]
    rfl
  | some o =>
    rw [parse_eq_primary raw mp qn now o hd]
    exact primaryRespOk o raw mp qn now ((primaryWellTyped_some raw o hd) ▸ h)

/-- C3 witness: a reply with no JSON at all is handled by the fallback and
returns a GradingResponse. -/
theorem parse_ok_when_primary_welltyped_witness :
    primaryWellTyped rawPlain = true
      ∧ eIsOk (parse_grading_response rawPlain 10 none "") = true :=
  ⟨by with_unfolding_all rfl,
   parse_ok_when_primary_welltyped rawPlain 10 none ""
     (by with_unfolding_all rfl)⟩

/-- One unfolding of the retry loop. -/
theorem callOllamaAux_step (f : ℕ → AttemptOutcome) (r a : ℕ) :
    callOllamaAux f (r + 1) a =
      match f a with
      | .success body => .ok (jGetD body "response" (Json.str ""))
      | .timeout =>
        if r = 0 then .error ⟨504, "Ollama service timeout"⟩
        else callOllamaAux f r (a + 1)
      | .httpError m =>
        if r = 0 then .error ⟨502, "Ollama service error: " ++ m⟩
        else callOllamaAux f r (a + 1)
      | .otherError m =>
        if r = 0 then .error ⟨500, "Internal error: " ++ m⟩
        else callOllamaAux f r (a + 1) := rfl

/-- call_ollama fully unrolled over its three attempts: the first 2xx reply
wins, any failure is retried, and the failure of the third attempt is
raised typed. -/
theorem call_ollama_unrolled (f : ℕ → AttemptOutcome) :
    call_ollama f =
      match f 0 with
      | .success body => .ok (jGetD body "response" (Json.str ""))
      | _ =>
        match f 1 with
        | .success body => .ok (jGetD body "response" (Json.str ""))
        | _ =>
          match f 2 with
          | .success body => .ok (jGetD body "response" (Json.str ""))
          | last => .error (failureException last) := by
  show callOllamaAux f 3 0 = _
  rw [show (3 : ℕ) = 2 + 1 from rfl, callOllamaAux_step f 2 0]
  cases h0 : f 0
  case success body => rfl
  all_goals
    rw [if_neg (by decide : ¬ (2 = 0)),
      show (2 : ℕ) = 1 + 1 from rfl, callOllamaAux_step f 1 1]
  all_goals cases h1 : f 1
  case' success body => rfl
  case' success body => rfl
  case' success body => rfl
  all_goals
    rw [if_neg (by decide : ¬ (1 = 0)),
      show (1 : ℕ) = 0 + 1 from rfl, callOllamaAux_step f 0 2]
  all_goals cases h2 : f 2
  all_goals rfl

/-- C4 counterexample: a first attempt failing with a generic exception is
retried like a timeout or transport failure would be, so a second-attempt
2xx reply makes the call succeed; under the claimed policy of retrying only
on timeout or transport/backend error, the generic failure would have been
raised instead of retried. -/
theorem call_ollama_retries_other_exception :
    ocBoom 0 = .otherError "boom"
      ∧ call_ollama ocBoom = .ok (Json.str "hi") :=
  ⟨rfl, rfl⟩

/-- C4 amended: call_ollama consults at most MAX_RETRIES = 3 attempts;
the first 2xx reply is returned; every failure kind, including a generic
exception, is retried; and when all three attempts fail the failure of the
third is raised typed: timeout as 504, backend HTTP error as 502, anything
else as 500.  All three attempts timing out therefore raises the 504
gateway-timeout error, not a generic one. -/
theorem call_ollama_retry_policy (oc : ℕ → AttemptOutcome) :
    (∀ oc2 : ℕ → AttemptOutcome,
      (∀ i, i < MAX_RETRIES → oc i = oc2 i) →
        call_ollama oc = call_ollama oc2)
    ∧ (∀ body, oc 0 = .success body →
        call_ollama oc = .ok (jGetD body "response" (Json.str "")))
    ∧ (∀ body, isFailure (oc 0) = true → oc 1 = .success body →
        call_ollama oc = .ok (jGetD body "response" (Json.str "")))
    ∧ (∀ body, isFailure (oc 0) = true → isFailure (oc 1) = true →
        oc 2 = .success body →
        call_ollama oc = .ok (jGetD body "response" (Json.str "")))
    ∧ (isFailure (oc 0) = true → isFailure (oc 1) = true →
        isFailure (oc 2) = true →
        call_ollama oc = .error (failureException (oc 2))) := by
  refine ⟨?_, ?_, ?_, ?_, ?_⟩
  · intro oc2 hag
    rw [call_ollama_unrolled oc, call_ollama_unrolled oc2,
      hag 0 (by decide), hag 1 (by decide), hag 2 (by decide)]
  · intro body h0
    rw [call_ollama_unrolled oc, h0]
  · intro body h0 h1
    cases ho : oc 0
    case success b2 => rw [ho] at h0; exact Bool.noConfusion h0
    all_goals rw [call_ollama_unrolled oc, ho, h1]
  · intro body h0 h1 h2
    cases ho : oc 0
    case success b2 => rw [ho] at h0; exact Bool.noConfusion h0
    all_goals cases ho1 : oc 1
    case' success b2 => rw [ho1] at h1; exact Bool.noConfusion h1
    case' success b2 => rw [ho1] at h1; exact Bool.noConfusion h1
    case' success b2 => rw [ho1] at h1; exact Bool.noConfusion h1
    all_goals rw [call_ollama_unrolled oc, ho, ho1, h2]
  · intro h0 h1 h2
    cases ho : oc 0
    case success b2 => rw [ho] at h0; exact Bool.noConfusion h0
    all_goals cases ho1 : oc 1
    case' success b2 => rw [ho1] at h1; exact Bool.noConfusion h1
    case' success b2 => rw [ho1] at h1; exact Bool.noConfusion h1
    case' success b2 => rw [ho1] at h1; exact Bool.noConfusion h1
    all_goals cases ho2 : oc 2
    all_goals first
      | (rw [ho2] at h2; exact Bool.noConfusion h2)
      | rw [call_ollama_unrolled oc, ho, ho1, ho2]

/-- C4 witness: with all three attempts timing out, the caller receives the
typed 504 gateway-timeout failure. -/
theorem call_ollama_retry_policy_witness :
    call_ollama ocTimeout = .error ⟨504, "Ollama service timeout"⟩ :=
  (call_ollama_retry_policy ocTimeout).2.2.2.2 rfl rfl rfl

/-- C5: grade_batch returns one result per request in order; an item whose
grading raises is replaced by the zero-score error item carrying the error
text in its feedback, and every other item gets exactly the result its
request would get graded alone.  grade_batch is a total function, so the
batch as a whole never fails. -/
theorem grade_batch_isolation
    (env : List (GradingRequest × (ℕ → AttemptOutcome))) (now : String) :
    (grade_batch env now).length = env.length
      ∧ ∀ (i : ℕ) req oc, env[i]? = some (req, oc) →
          (∀ r, grade_frq oc req now = .ok r →
            (grade_batch env now)[i]? = some r)
          ∧ (∀ e, grade_frq oc req now = .error e →
              (grade_batch env now)[i]? = some (errorResponse req e now)
                ∧ (errorResponse req e now).score = 0
                ∧ (errorResponse req e now).percentage = 0
                ∧ (errorResponse req e now).feedback
                    = "Error during grading: " ++ httpExceptionText e) := by
  constructor
  · exact List.length_map env _
  · intro i req oc hi
    constructor
    · intro r hr
      simp [grade_batch, List.getElem?_map, hi, hr]
    · intro e he
      refine ⟨?_, rfl, rfl, rfl⟩
      simp [grade_batch, List.getElem?_map, hi, he]

/-- C5 witness: in the three-item batch whose middle item times out, the
result list has length 3, the middle item is the zero-score error item with
the timeout text in its feedback, and the outer items are exactly what
their requests yield alone. -/
theorem grade_batch_isolation_witness :
    (grade_batch env3 "t").length = 3
      ∧ (grade_batch env3 "t")[0]? = some respBatchA
      ∧ (grade_batch env3 "t")[1]?
          = some (errorResponse reqB ⟨504, "Ollama service timeout"⟩ "t")
      ∧ (errorResponse reqB ⟨504, "Ollama service timeout"⟩ "t").score = 0
      ∧ (errorResponse reqB ⟨504, "Ollama service timeout"⟩ "t").feedback
          = "Error during grading: 504: Ollama service timeout"
      ∧ (grade_batch env3 "t")[2]? = some respBatchC := by
  have h := grade_batch_isolation env3 "t"
  have hA := (h.2 0 reqA (ocGood "Score: 8 out of 10") rfl).1 respBatchA
    (by with_unfolding_all rfl)
  have hB := (h.2 1 reqB ocTimeout rfl).2 ⟨504, "Ollama service timeout"⟩
    (by with_unfolding_all rfl)
  have hC := (h.2 2 reqC (ocGood "Score: 9 out of 10") rfl).1 respBatchC
    (by with_unfolding_all rfl)
  exact ⟨h.1, hA, hB.1, hB.2.1,
    hB.2.2.2.trans (by with_unfolding_all rfl), hC⟩

/-- C6: whenever the primary JSON extraction does not succeed (no brace
match or a decode failure), parse_grading_response takes the fallback path:
the feedback is the entire raw text, rubric_alignment is the single overall
entry equal to score / max_points, and the score is the case-insensitively
matched score pattern number fed through the clamp, or 0 when the pattern
is absent. -/
theorem fallback_path_characterization (raw : String) (mp : ℚ)
    (qn : Option String) (now : String) (r : GradingResponse)
    (hfb : primaryDecoded raw = none)
    (hok : parse_grading_response raw mp qn now = .ok r) :
    r.feedback = raw
      ∧ r.rubric_alignment = [("overall", r.score / mp)]
      ∧ (∀ ns, scoreSearch raw.data = some ns →
          r.score = clampScore ((pyFloatOfChars ns).getD 0) mp)
      ∧ (scoreSearch raw.data = none → r.score = 0) := by
  rw [parse_eq_fallback raw mp qn now hfb] at hok
  injection hok with h2
  subst h2
  refine ⟨rfl, ?_, ?_, ?_⟩
  · show [("overall", if 0 < mp then clampScore (fallbackScore0 raw) mp / mp else 0)]
      = [("overall", clampScore (fallbackScore0 raw) mp / mp)]
    rw [overall_eq_div]
  · intro ns hns
    show clampScore (fallbackScore0 raw) mp
      = clampScore ((pyFloatOfChars ns).getD 0) mp
    unfold fallbackScore0
    rw [hns]
  · intro hnone
    show clampScore (fallbackScore0 raw) mp = 0
    unfold fallbackScore0
    rw [hnone]
    exact clampScore_zero mp

/-- C6 witness: the reply Score 7 out of 10 with no JSON takes the fallback
path and yields score 7, the raw text as feedback, and the single overall
rubric entry. -/
theorem fallback_path_characterization_witness :
    parse_grading_response rawScore7 10 none "" = .ok resp7
      ∧ resp7.score = 7 ∧ resp7.feedback = rawScore7
      ∧ resp7.rubric_alignment = [("overall", resp7.score / 10)] := by
  have h := fallback_path_characterization rawScore7 10 none "" resp7
    (by with_unfolding_all rfl) (by with_unfolding_all rfl)
  exact ⟨by with_unfolding_all rfl,
    (h.2.2.1 ['7'] (by with_unfolding_all rfl)).trans (by with_unfolding_all rfl),
    h.1, h.2.1⟩

/-- C7: when a JSON object is located by the brace pattern and decoded, the
parser extracts score, feedback and rubric_alignment from it, and each
missing field falls back to its default: score to 0, feedback to the whole
raw text, rubric_alignment to the empty mapping. -/
theorem primary_path_characterization (raw : String) (mp : ℚ)
    (qn : Option String) (now : String) (o : List (String × Json))
    (s0 : ℚ) (fb : String) (ra : List (String × ℚ))
    (hd : primaryDecoded raw = some o)
    (hs : extractScore o = .ok s0)
    (hf : extractFeedback o raw = .ok fb)
    (hr : extractRubric o = .ok ra) :
    parse_grading_response raw mp qn now =
      .ok { score := clampScore s0 mp, max_points := mp,
            percentage := pyRound2 (pctOf (clampScore s0 mp) mp),
            feedback := fb, rubric_alignment := ra,
            timestamp := now, question_number := qn }
      ∧ (jGet o "score" = none → s0 = 0)
      ∧ (jGet o "feedback" = none → fb = raw)
      ∧ (jGet o "rubric_alignment" = none → ra = []) := by
  refine ⟨?_, ?_, ?_, ?_⟩
  · rw [parse_eq_primary raw mp qn now o hd]
    unfold primaryResponse
    simp only [hs, hf, hr]
  · intro hnone
    unfold extractScore jGetD at hs
    rw [hnone] at hs
    exact (Except.ok.inj hs).symm
  · intro hnone
    unfold extractFeedback at hf
    rw [hnone] at hf
    exact (Except.ok.inj hf).symm
  · intro hnone
    unfold extractRubric at hr
    rw [hnone] at hr
    exact (Except.ok.inj hr).symm

/-- C7 witness: a reply that is just an empty JSON object takes the primary
path with every field defaulted: score 0, feedback the raw text, empty
rubric mapping. -/
theorem primary_path_characterization_witness :
    parse_grading_response rawEmptyObj 10 none "" = .ok respEmptyObj
      ∧ respEmptyObj.score = 0 ∧ respEmptyObj.feedback = rawEmptyObj
      ∧ respEmptyObj.rubric_alignment = [] := by
  have h := primary_path_characterization rawEmptyObj 10 none "" [] 0
    rawEmptyObj [] (by with_unfolding_all rfl) (by with_unfolding_all rfl)
    (by with_unfolding_all rfl) (by with_unfolding_all rfl)
  exact ⟨h.1.trans (by with_unfolding_all rfl), rfl, rfl, rfl⟩

/-- C8 counterexample: the primary path copies rubric_alignment from the
model JSON without any range check, so a reported value of 2.5 reaches the
caller even though it lies outside [0, 1]. -/
theorem rubric_alignment_out_of_range :
    parse_grading_response rawRubric25 10 none "" = .ok respRubric25
      ∧ respRubric25.rubric_alignment = [("a", 5 / 2)]
      ∧ ¬ ((5 : ℚ) / 2 ≤ 1) :=
  ⟨by with_unfolding_all rfl, rfl, by norm_num⟩

/-- C8 amended: on the fallback path every rubric_alignment value lies in
[0, 1], because the single overall entry is the clamped score divided by
max_points; on the primary path the mapping is taken verbatim from the
model output and can lie outside the unit interval. -/
theorem fallback_rubric_values_in_unit (raw : String) (mp : ℚ)
    (qn : Option String) (now : String) (r : GradingResponse)
    (k : String) (q : ℚ)
    (hfb : primaryDecoded raw = none)
    (hok : parse_grading_response raw mp qn now = .ok r)
    (hmem : (k, q) ∈ r.rubric_alignment) :
    0 ≤ q ∧ q ≤ 1 := by
  rw [parse_eq_fallback raw mp qn now hfb] at hok
  injection hok with h2
  subst h2
  have hkv := List.mem_singleton.mp hmem
  rw [Prod.mk.injEq] at hkv
  obtain ⟨-, hq⟩ := hkv
  subst hq
  split_ifs with hmp
  · constructor
    · exact div_nonneg (clampScore_nonneg _ _) (le_of_lt hmp)
    · exact (div_le_one hmp).mpr (clampScore_le _ _ (le_of_lt hmp))
  · norm_num

/-- C8 amended witness: the fallback result for Score 7 out of 10 carries
the overall entry 7/10, inside the unit interval. -/
theorem fallback_rubric_values_in_unit_witness :
    0 ≤ (7 : ℚ) / 10 ∧ (7 : ℚ) / 10 ≤ 1 :=
  fallback_rubric_values_in_unit rawScore7 10 none "" resp7 "overall" (7 / 10)
    (by with_unfolding_all rfl) (by with_unfolding_all rfl)
    (List.mem_singleton.mpr rfl)

/-- C9: for every probe outcome the health endpoints return status healthy,
the health endpoint returns exactly what the root endpoint returns, and
backend unreachability shows up only in the ollama_available flag, which is
true exactly when the probe replied 200.  Both handlers are total
functions of the probe outcome, so the endpoints answer 200 and never an
error response. -/
theorem health_endpoints_always_healthy (probe : ProbeOutcome) :
    (root probe).status = "healthy"
      ∧ health probe = root probe
      ∧ ((root probe).ollama_available = true
          ↔ probe = ProbeOutcome.response 200) := by
  refine ⟨rfl, rfl, ?_⟩
  cases probe with
  | response code => simp [root]
  | failure msg => simp [root]

/-- C10: when the backend replies 2xx with a JSON body lacking a response
field, call_ollama returns the empty string, and grading such a reply
yields the zero-score fallback result with empty feedback and percentage 0
rather than an error. -/
theorem missing_response_field_zero_score (body : List (String × Json))
    (req : GradingRequest) (now : String)
    (h : jGet body "response" = none) :
    call_ollama (fun _ => .success body) = .ok (Json.str "")
      ∧ grade_frq (fun _ => .success body) req now
          = .ok (fallbackResponse "" (req.max_points : ℚ)
              req.question_number now)
      ∧ (fallbackResponse "" (req.max_points : ℚ)
          req.question_number now).score = 0
      ∧ (fallbackResponse "" (req.max_points : ℚ)
          req.question_number now).feedback = ""
      ∧ (fallbackResponse "" (req.max_points : ℚ)
          req.question_number now).percentage = 0 := by
  have hco : call_ollama (fun _ => .success body) = .ok (Json.str "") := by
    rw [call_ollama_unrolled]
    show Except.ok (jGetD body "response" (Json.str "")) = _
    unfold jGetD
    rw [h]
    rfl
  refine ⟨hco, ?_, ?_, rfl, ?_⟩
  · unfold grade_frq
    rw [hco]
    rfl
  · show clampScore (fallbackScore0 "") (req.max_points : ℚ) = 0
    rw [show fallbackScore0 "" = 0 from rfl]
    exact clampScore_zero _
  · show pyRound2 (pctOf (clampScore (fallbackScore0 "")
      (req.max_points : ℚ)) (req.max_points : ℚ)) = 0
    rw [show fallbackScore0 "" = 0 from rfl, clampScore_zero,
      pctOf_zero_left, pyRound2_zero]

/-- C10 witness: a concrete 2xx body without a response field yields the
empty generated text and the zero-score result. -/
theorem missing_response_field_zero_score_witness :
    call_ollama (fun _ => .success bodyNoResponse) = .ok (Json.str "")
      ∧ grade_frq (fun _ => .success bodyNoResponse) reqA "t"
          = .ok (fallbackResponse "" (reqA.max_points : ℚ)
              reqA.question_number "t")
      ∧ (fallbackResponse "" (reqA.max_points : ℚ)
          reqA.question_number "t").score = 0
      ∧ (fallbackResponse "" (reqA.max_points : ℚ)
          reqA.question_number "t").feedback = "" :=
  have h := missing_response_field_zero_score bodyNoResponse reqA "t" rfl
  ⟨h.1, h.2.1, h.2.2.1, h.2.2.2.1⟩
